import Mathlib

/-!
Shallow embedding of `src/app/main.py` (Autonomy-Logic/compiler-service), a
FastAPI service with four POST endpoints: `/generate-st`, `/compile-st`,
`/generate-debug`, `/generate-gluevars`.  Each endpoint parses a JSON body,
validates one or two string fields, creates a temporary workspace directory
(`tempfile.mkdtemp`), writes the input file(s), runs an external tool via
`subprocess.run` with the workspace as working directory, harvests output
files, builds a JSON response, and removes the workspace in a `finally`
block via `shutil.rmtree(temp_dir, ignore_errors=True)`.

Modelling decisions:
 * JSON values are the inductive `Json`; a request body is `ReqBody`:
   either `.invalid` (the body failed to parse, `await request.json()`
   raises and the handler answers HTTP 400) or `.parsed j`.
 * Python `data.get(key)` on a parsed body: on a dict it returns the value
   or `None` (modelled `Json.null`); on any non-dict it raises
   `AttributeError`, which no handler catches, so FastAPI answers with an
   internal server error (`Outcome.serverError`).
 * The workspace is a flat list of regular files, `FS`; directories are not
   modelled (the code only reads regular files: `os.path.isfile`).
   File contents are `FileData`: `.text s` reads cleanly as the string `s`;
   `.badBytes r` raises `UnicodeDecodeError` under a strict-mode read and
   yields the replacement-decoded string `r` under
   `open(..., errors="replace")`; `.ioError m` raises an `OSError` with
   message `m` under any read.
 * The external tool is a function `Tool : FS → ToolResult` from the
   workspace contents after the inputs were written to the captured
   stdout, stderr, exit code and the workspace contents after the run.
   `subprocess.run(..., text=True)` always yields strings for stdout and
   stderr and an integer return code.
 * `shutil.rmtree(temp_dir, ignore_errors=True)` deletes the directory and
   never raises; the boolean argument `rmtreeFails` stands for an error
   arising during deletion, and the definitions ignore it exactly because
   `ignore_errors=True` suppresses it.
 * Exception detail strings from the source are reproduced with the inner
   single quotes elided (e.g. the source says "Missing or invalid
   'plc_xml' field in request body.").
Each endpoint is split, mirroring the source layout, into a `*_body`
function (the `try:` block after the workspace exists: write inputs, run
tool, harvest, shape response) and the full handler returning a `Trace`
that also records whether a workspace was created, whether the subprocess
ran, and whether cleanup ran.
-/

namespace CompilerService

/-- JSON values, the result of `json.loads` on the request body. -/
inductive Json where
  | null : Json
  | bool : Bool → Json
  | num : Int → Json
  | str : String → Json
  | arr : List Json → Json
  | obj : List (String × Json) → Json

/-- The fields of a JSON object (or of a JSON response body). -/
abbrev Fields := List (String × Json)

/-- A parsed request body: `await request.json()` either raises
(`invalid`, handled as HTTP 400) or produces a JSON value. -/
inductive ReqBody where
  | invalid : ReqBody
  | parsed : Json → ReqBody

/-- Content of one regular file in the workspace, as seen by Python reads:
`text s` decodes cleanly to `s`; `badBytes r` raises `UnicodeDecodeError`
under a strict read but decodes to `r` under `errors="replace"`;
`ioError m` raises an `OSError` with message `m` under any read. -/
inductive FileData where
  | text : String → FileData
  | badBytes : String → FileData
  | ioError : String → FileData
deriving DecidableEq

/-- The workspace directory: the regular files directly under it. -/
abbrev FS := List (String × FileData)

/-- What `subprocess.run(..., stdout=PIPE, stderr=PIPE, text=True)` yields,
together with the workspace contents after the tool has run. -/
structure ToolResult where
  stdout : String
  stderr : String
  returncode : Int
  fsAfter : FS

/-- The external executable, as a function from the workspace contents at
invocation time to the captured result and the workspace afterwards. -/
abbrev Tool := FS → ToolResult

/-- Look a file up in the workspace (first match). -/
def lookupFS (fs : FS) (name : String) : Option FileData :=
  fs.lookup name

/-- Probe `os.path.exists` and then read in strict mode, `open(...).read()`:
absent file yields `none`; a clean text file yields its content; an
undecodable or unreadable file raises (`Except.error`). -/
def harvestNamed (fs : FS) (name : String) : Except String (Option String) :=
  match lookupFS fs name with
  | none => .ok none
  | some (.text s) => .ok (some s)
  | some (.badBytes _) => .error "UnicodeDecodeError"
  | some (.ioError m) => .error m

/-- Reading one file in `compile_st`: `open(..., errors="replace")` never
raises on bad bytes (it yields the replacement-decoded text), and the
surrounding `except` turns any other read error into the placeholder
string `"Error reading file: " ++ msg`. -/
def readFileReplace : FileData → String
  | .text s => s
  | .badBytes r => r
  | .ioError m => "Error reading file: " ++ m

/-- Enumerate-mode harvesting (`compile_st`): every regular file directly
under the workspace except the named input file, each read via
`readFileReplace`. -/
def harvestAll (fs : FS) (excluded : String) : List (String × String) :=
  (fs.filter (fun p => p.1 ≠ excluded)).map (fun p => (p.1, readFileReplace p.2))

/-- The observable result of one endpoint invocation:
`clientError` is a raised `HTTPException` (status 400 or 422),
`serverError` is an uncaught Python exception (FastAPI answers 500),
`ok` is a `JSONResponse` with the given fields. -/
inductive Outcome where
  | clientError : Nat → String → Outcome
  | serverError : String → Outcome
  | ok : Fields → Outcome

/-- Whether the outcome is a raised `HTTPException` (a 4xx client error). -/
def Outcome.isClientError : Outcome → Bool
  | .clientError _ _ => true
  | _ => false

/-- One invocation's outcome plus its side effects on the scratch root:
whether `tempfile.mkdtemp` ran, whether `subprocess.run` ran, and whether
the `finally` cleanup (`shutil.rmtree`) ran. -/
structure Trace where
  outcome : Outcome
  wsCreated : Bool
  toolRan : Bool
  cleanupRan : Bool

/-- A workspace directory remains on disk after the invocation iff one was
created and the cleanup never ran. -/
def Trace.wsRemains (t : Trace) : Bool :=
  t.wsCreated && !t.cleanupRan

/-- Python `dict.get(key)` on the fields of a JSON object: the value if the key
is present, else `None`. -/
def getField (fields : Fields) (key : String) : Json :=
  match fields.lookup key with
  | some v => v
  | none => .null

/-- Python `data.get(key)`: a dict yields the value or `None`; any
non-dict raises `AttributeError`. -/
def pyGet (j : Json) (key : String) : Except String Json :=
  match j with
  | .obj fields => .ok (getField fields key)
  | _ => .error "AttributeError"

/-- Python `isinstance(v, str)` on a JSON value. -/
def isStr : Json → Bool
  | .str _ => true
  | _ => false

/-- Python `s.strip()`: remove leading and trailing whitespace. -/
def pyStrip (s : String) : String :=
  .mk (((s.data.dropWhile Char.isWhitespace).reverse.dropWhile Char.isWhitespace).reverse)

/-- The validation `isinstance(v, str) and v.strip()`: a string that is
nonempty after stripping surrounding whitespace. -/
def isNonEmptyStr : Json → Bool
  | .str s => !(pyStrip s == "")
  | _ => false

/-- The string carried by a `Json.str` (defaulting to `""`). -/
def strOf : Json → String
  | .str s => s
  | _ => ""

/-- Python `result.stderr if result.stderr else ""`: string truthiness. -/
def pyStderr (e : String) : String :=
  if e = "" then "" else e

/-- Look a field up in a JSON response body. -/
def respField (resp : Fields) (key : String) : Option Json :=
  resp.lookup key

/-- Whether a JSON object carries the given key. -/
def hasKey (fields : Fields) (key : String) : Bool :=
  fields.any (fun p => p.1 == key)

/-- The `try:` block of `/generate-st` once the workspace exists: write
`plc.xml`, run `/usr/bin/xml2st --generate-st plc.xml`, read `program.st`
if present (strict mode), shape the response. -/
def generate_st_body (plcXml : String) (tool : Tool) : Outcome :=
  let r := tool [("plc.xml", .text plcXml)]
  match harvestNamed r.fsAfter "program.st" with
  | .error m => .serverError m
  | .ok programSt =>
    .ok [("output_stdout", .str r.stdout),
         ("output_stderr", .str (pyStderr r.stderr)),
         ("exit_code", .num r.returncode),
         ("program_st", match programSt with
                        | some s => .str s
                        | none => .null)]

/-- The `/generate-st` handler: parse the body (400 on parse failure),
`data.get("plc_xml")` (`AttributeError` on a non-dict body), validate the
field (422), then `mkdtemp`, the `try:` body, and the `finally:` cleanup
with `ignore_errors=True` (`rmtreeFails` is therefore ignored). -/
def generate_st (body : ReqBody) (tool : Tool) (rmtreeFails : Bool) : Trace :=
  match body with
  | .invalid =>
    ⟨.clientError 400 "Request body must be valid JSON.", false, false, false⟩
  | .parsed j =>
    match pyGet j "plc_xml" with
    | .error m => ⟨.serverError m, false, false, false⟩
    | .ok v =>
      if isNonEmptyStr v then
        ⟨generate_st_body (strOf v) tool, true, true, true⟩
      else
        ⟨.clientError 422 "Missing or invalid plc_xml field in request body.",
         false, false, false⟩

/-- The `try:` block of `/compile-st`: write `program.st`, run
`/usr/bin/iec2c -f -p -i -l program.st`, enumerate every regular file
except `program.st` (reads use `errors="replace"` plus a per-file
`except`), shape the response. -/
def compile_st_body (programSt : String) (tool : Tool) : Outcome :=
  let r := tool [("program.st", .text programSt)]
  let generated := harvestAll r.fsAfter "program.st"
  .ok [("output_stdout", .str r.stdout),
       ("output_stderr", .str (pyStderr r.stderr)),
       ("exit_code", .num r.returncode),
       ("files", .obj (generated.map (fun p => (p.1, .str p.2))))]

/-- The `/compile-st` handler (same framing as `generate_st`, with the
required field `program_st`). -/
def compile_st (body : ReqBody) (tool : Tool) (rmtreeFails : Bool) : Trace :=
  match body with
  | .invalid =>
    ⟨.clientError 400 "Request body must be valid JSON.", false, false, false⟩
  | .parsed j =>
    match pyGet j "program_st" with
    | .error m => ⟨.serverError m, false, false, false⟩
    | .ok v =>
      if isNonEmptyStr v then
        ⟨compile_st_body (strOf v) tool, true, true, true⟩
      else
        ⟨.clientError 422 "Missing or invalid program_st field in request body.",
         false, false, false⟩

/-- The `try:` block of `/generate-debug`: write `program.st` and
`VARIABLES.csv`, run `/usr/bin/xml2st --generate-debug program.st
VARIABLES.csv`, read back `program.st` and then `debug.c` if present
(strict mode), shape the response. -/
def generate_debug_body (programSt variablesCsv : String) (tool : Tool) : Outcome :=
  let r := tool [("program.st", .text programSt), ("VARIABLES.csv", .text variablesCsv)]
  match harvestNamed r.fsAfter "program.st" with
  | .error m => .serverError m
  | .ok stWithDebug =>
    match harvestNamed r.fsAfter "debug.c" with
    | .error m => .serverError m
    | .ok debugC =>
      .ok [("output_stdout", .str r.stdout),
           ("output_stderr", .str (pyStderr r.stderr)),
           ("exit_code", .num r.returncode),
           ("program_st", match stWithDebug with
                          | some s => .str s
                          | none => .null),
           ("debug_c", match debugC with
                       | some s => .str s
                       | none => .null)]

/-- The `/generate-debug` handler: validates `program_st` first, then
`variables_csv` (each as `isinstance str` and nonempty after strip). -/
def generate_debug (body : ReqBody) (tool : Tool) (rmtreeFails : Bool) : Trace :=
  match body with
  | .invalid =>
    ⟨.clientError 400 "Request body must be valid JSON.", false, false, false⟩
  | .parsed j =>
    match pyGet j "program_st" with
    | .error m => ⟨.serverError m, false, false, false⟩
    | .ok v1 =>
      match pyGet j "variables_csv" with
      | .error m => ⟨.serverError m, false, false, false⟩
      | .ok v2 =>
        if isNonEmptyStr v1 then
          if isNonEmptyStr v2 then
            ⟨generate_debug_body (strOf v1) (strOf v2) tool, true, true, true⟩
          else
            ⟨.clientError 422 "Missing or invalid variables_csv field in request body.",
             false, false, false⟩
        else
          ⟨.clientError 422 "Missing or invalid program_st field in request body.",
           false, false, false⟩

/-- The `try:` block of `/generate-gluevars`: write `LOCATED_VARIABLES.h`,
run `/usr/bin/xml2st --generate-gluevars LOCATED_VARIABLES.h`, read
`glueVars.c` if present (strict mode), shape the response. -/
def generate_gluevars_body (locatedVars : String) (tool : Tool) : Outcome :=
  let r := tool [("LOCATED_VARIABLES.h", .text locatedVars)]
  match harvestNamed r.fsAfter "glueVars.c" with
  | .error m => .serverError m
  | .ok glueVarsC =>
    .ok [("output_stdout", .str r.stdout),
         ("output_stderr", .str (pyStderr r.stderr)),
         ("exit_code", .num r.returncode),
         ("glue_vars_c", match glueVarsC with
                         | some s => .str s
                         | none => .null)]

/-- The `/generate-gluevars` handler.  Unlike the other three endpoints,
validation is only `isinstance(located_vars_text, str)`: the empty (or
whitespace-only) string is accepted. -/
def generate_gluevars (body : ReqBody) (tool : Tool) (rmtreeFails : Bool) : Trace :=
  match body with
  | .invalid =>
    ⟨.clientError 400 "Request body must be valid JSON.", false, false, false⟩
  | .parsed j =>
    match pyGet j "located_variables_h" with
    | .error m => ⟨.serverError m, false, false, false⟩
    | .ok v =>
      if isStr v then
        ⟨generate_gluevars_body (strOf v) tool, true, true, true⟩
      else
        ⟨.clientError 422 "Missing or invalid located_variables_h field in request body.",
         false, false, false⟩

/-- A tool double that prints nothing, succeeds, and leaves the workspace
exactly as it found it. -/
def idTool : Tool := fun fs => ⟨"", "", 0, fs⟩

/-- A tool double that leaves behind a `program.st` whose bytes do not
decode as text (a strict-mode read raises `UnicodeDecodeError`). -/
def undecodableTool : Tool := fun _ => ⟨"", "", 0, [("program.st", .badBytes "bad")]⟩

/-- A tool double that leaves behind one output file that raises an
`OSError` with message `boom` on any read. -/
def failReadTool : Tool := fun _ => ⟨"", "", 0, [("POUS.c", .ioError "boom")]⟩

/-- A tool double that writes stdout/stderr, exits 7, and produces one
output file next to the (rewritten) input file. -/
def produceTool : Tool :=
  fun _ => ⟨"out", "err", 7, [("program.st", .text "rewritten"), ("POUS.c", .text "int x;")]⟩

/-- The request field is missing, not a string, or empty (or whitespace
only) after stripping — the condition the spec calls an invalid required
string field. -/
def missingOrBadStr (fields : Fields) (key : String) : Bool :=
  match fields.lookup key with
  | some (.str s) => pyStrip s == ""
  | some _ => true
  | none => true

/-- The request field is missing or not a string (the weaker condition
that `/generate-gluevars` actually checks). -/
def missingOrNonStr (fields : Fields) (key : String) : Bool :=
  match fields.lookup key with
  | some (.str _) => false
  | _ => true

/-- The invocation was rejected as a client error before any side effect:
no workspace was created and no subprocess ran. -/
def clientRejected (t : Trace) : Prop :=
  t.outcome.isClientError = true ∧ t.wsCreated = false ∧ t.toolRan = false

/-- Whether a JSON value is an object (a Python dict after `json.loads`). -/
def isObj : Json → Bool
  | .obj _ => true
  | _ => false

/-- Whether an `ok` outcome's `files` object carries the given key. -/
def filesHasKey (o : Outcome) (key : String) : Bool :=
  match o with
  | .ok resp =>
    match respField resp "files" with
    | some (.obj files) => hasKey files key
    | _ => false
  | _ => false

/-- Replace the tool's exit code, leaving its streams and the workspace
untouched. -/
def setRc (rc : Int) (tool : Tool) : Tool :=
  fun fs => { tool fs with returncode := rc }

/-- Overwrite the `exit_code` field of an `ok` response; other outcomes
are returned unchanged. -/
def setExit (rc : Int) : Outcome → Outcome
  | .ok resp => .ok (resp.map (fun p => if p.1 = "exit_code" then (p.1, .num rc) else p))
  | o => o

/-! ## Supporting lemmas -/

theorem pyStderr_eq (e : String) : pyStderr e = e := by
  unfold pyStderr
  split
  case isTrue h => exact h.symm
  case isFalse _ => rfl

theorem trace_wsRemains_of_cleanup {t : Trace} (h : t.cleanupRan = t.wsCreated) :
    t.wsRemains = false := by
  unfold Trace.wsRemains
  rw [h]
  cases t.wsCreated <;> rfl

theorem generate_st_cleanup (body : ReqBody) (tool : Tool) (rf : Bool) :
    (generate_st body tool rf).cleanupRan = (generate_st body tool rf).wsCreated := by
  cases body with
  | invalid => rfl
  | parsed j =>
    cases h : pyGet j "plc_xml" with
    | error m => simp [generate_st, h]
    | ok v => by_cases hv : isNonEmptyStr v <;> simp [generate_st, h, hv]

theorem compile_st_cleanup (body : ReqBody) (tool : Tool) (rf : Bool) :
    (compile_st body tool rf).cleanupRan = (compile_st body tool rf).wsCreated := by
  cases body with
  | invalid => rfl
  | parsed j =>
    cases h : pyGet j "program_st" with
    | error m => simp [compile_st, h]
    | ok v => by_cases hv : isNonEmptyStr v <;> simp [compile_st, h, hv]

theorem generate_debug_cleanup (body : ReqBody) (tool : Tool) (rf : Bool) :
    (generate_debug body tool rf).cleanupRan = (generate_debug body tool rf).wsCreated := by
  cases body with
  | invalid => rfl
  | parsed j =>
    cases h : pyGet j "program_st" with
    | error m => simp [generate_debug, h]
    | ok v1 =>
      cases h2 : pyGet j "variables_csv" with
      | error m => simp [generate_debug, h, h2]
      | ok v2 =>
        by_cases e1 : isNonEmptyStr v1 <;> by_cases e2 : isNonEmptyStr v2 <;>
          simp [generate_debug, h, h2, e1, e2]

theorem generate_gluevars_cleanup (body : ReqBody) (tool : Tool) (rf : Bool) :
    (generate_gluevars body tool rf).cleanupRan = (generate_gluevars body tool rf).wsCreated := by
  cases body with
  | invalid => rfl
  | parsed j =>
    cases h : pyGet j "located_variables_h" with
    | error m => simp [generate_gluevars, h]
    | ok v => by_cases hv : isStr v <;> simp [generate_gluevars, h, hv]

theorem generate_st_rmtree_irrelevant (body : ReqBody) (tool : Tool) (a b : Bool) :
    generate_st body tool a = generate_st body tool b := rfl

theorem compile_st_rmtree_irrelevant (body : ReqBody) (tool : Tool) (a b : Bool) :
    compile_st body tool a = compile_st body tool b := rfl

theorem generate_debug_rmtree_irrelevant (body : ReqBody) (tool : Tool) (a b : Bool) :
    generate_debug body tool a = generate_debug body tool b := rfl

theorem generate_gluevars_rmtree_irrelevant (body : ReqBody) (tool : Tool) (a b : Bool) :
    generate_gluevars body tool a = generate_gluevars body tool b := rfl

theorem mem_harvestAll {fs : FS} {n : String} {d : FileData} {excluded : String}
    (hm : (n, d) ∈ fs) (hn : n ≠ excluded) :
    (n, readFileReplace d) ∈ harvestAll fs excluded := by
  unfold harvestAll
  exact List.mem_map.mpr ⟨(n, d), List.mem_filter.mpr ⟨hm, by simpa using hn⟩, rfl⟩

theorem compile_st_body_eq (s : String) (tool : Tool) :
    compile_st_body s tool =
      .ok [("output_stdout", .str (tool [("program.st", .text s)]).stdout),
           ("output_stderr", .str (pyStderr (tool [("program.st", .text s)]).stderr)),
           ("exit_code", .num (tool [("program.st", .text s)]).returncode),
           ("files", .obj ((harvestAll (tool [("program.st", .text s)]).fsAfter
               "program.st").map (fun p => (p.1, .str p.2))))] := rfl

/-! ## Claims -/

/-- C1: on every endpoint and every exit path, when the workspace is
created the `finally` cleanup runs (so no workspace directory remains
afterwards), and workspace deletion errors are suppressed: the trace does
not depend on whether `shutil.rmtree` hit an error. -/
theorem c1_workspace_always_cleaned (body : ReqBody) (tool : Tool) (rf : Bool) :
    ((generate_st body tool rf).cleanupRan = (generate_st body tool rf).wsCreated
      ∧ (generate_st body tool rf).wsRemains = false
      ∧ generate_st body tool true = generate_st body tool false)
    ∧ ((compile_st body tool rf).cleanupRan = (compile_st body tool rf).wsCreated
      ∧ (compile_st body tool rf).wsRemains = false
      ∧ compile_st body tool true = compile_st body tool false)
    ∧ ((generate_debug body tool rf).cleanupRan = (generate_debug body tool rf).wsCreated
      ∧ (generate_debug body tool rf).wsRemains = false
      ∧ generate_debug body tool true = generate_debug body tool false)
    ∧ ((generate_gluevars body tool rf).cleanupRan = (generate_gluevars body tool rf).wsCreated
      ∧ (generate_gluevars body tool rf).wsRemains = false
      ∧ generate_gluevars body tool true = generate_gluevars body tool false) :=
  ⟨⟨generate_st_cleanup body tool rf,
    trace_wsRemains_of_cleanup (generate_st_cleanup body tool rf),
    generate_st_rmtree_irrelevant body tool true false⟩,
   ⟨compile_st_cleanup body tool rf,
    trace_wsRemains_of_cleanup (compile_st_cleanup body tool rf),
    compile_st_rmtree_irrelevant body tool true false⟩,
   ⟨generate_debug_cleanup body tool rf,
    trace_wsRemains_of_cleanup (generate_debug_cleanup body tool rf),
    generate_debug_rmtree_irrelevant body tool true false⟩,
   ⟨generate_gluevars_cleanup body tool rf,
    trace_wsRemains_of_cleanup (generate_gluevars_cleanup body tool rf),
    generate_gluevars_rmtree_irrelevant body tool true false⟩⟩

/-- C2 counterexample: `/generate-gluevars` accepts an empty
`located_variables_h` string (its validation has no strip check): the
workspace is created, the subprocess runs, and the outcome is not a
client error — contradicting the claim for this endpoint. -/
theorem c2_counterexample :
    (generate_gluevars (.parsed (.obj [("located_variables_h", Json.str "")])) idTool false).wsCreated
        = true
    ∧ (generate_gluevars (.parsed (.obj [("located_variables_h", Json.str "")])) idTool false).toolRan
        = true
    ∧ (generate_gluevars (.parsed (.obj [("located_variables_h", Json.str "")])) idTool
          false).outcome.isClientError = false :=
  ⟨rfl, rfl, rfl⟩

theorem missingOrBadStr_eq (fields : Fields) (key : String) :
    missingOrBadStr fields key = !(isNonEmptyStr (getField fields key)) := by
  unfold missingOrBadStr getField isNonEmptyStr
  cases h : fields.lookup key with
  | none => rfl
  | some v => cases v <;> simp

theorem missingOrNonStr_eq (fields : Fields) (key : String) :
    missingOrNonStr fields key = !(isStr (getField fields key)) := by
  unfold missingOrNonStr getField isStr
  cases h : fields.lookup key with
  | none => rfl
  | some v => cases v <;> simp

/-- C2, amended: the three endpoints `/generate-st`, `/compile-st`,
`/generate-debug` reject a required field that is missing, not a string,
or empty/whitespace-only after stripping, with a client error, no
workspace and no subprocess; `/generate-gluevars` rejects only a missing
or non-string `located_variables_h` this way — an empty or
whitespace-only string is accepted there. -/
theorem c2_amended_field_validation (fields : Fields) (tool : Tool) (rf : Bool) :
    (missingOrBadStr fields "plc_xml" = true →
      clientRejected (generate_st (.parsed (.obj fields)) tool rf))
    ∧ (missingOrBadStr fields "program_st" = true →
      clientRejected (compile_st (.parsed (.obj fields)) tool rf))
    ∧ ((missingOrBadStr fields "program_st" || missingOrBadStr fields "variables_csv") = true →
      clientRejected (generate_debug (.parsed (.obj fields)) tool rf))
    ∧ (missingOrNonStr fields "located_variables_h" = true →
      clientRejected (generate_gluevars (.parsed (.obj fields)) tool rf)) := by
  refine ⟨?_, ?_, ?_, ?_⟩
  · intro hbad
    rw [missingOrBadStr_eq, Bool.not_eq_true'] at hbad
    simp [generate_st, pyGet, hbad, clientRejected, Outcome.isClientError]
  · intro hbad
    rw [missingOrBadStr_eq, Bool.not_eq_true'] at hbad
    simp [compile_st, pyGet, hbad, clientRejected, Outcome.isClientError]
  · intro hbad
    rw [Bool.or_eq_true, missingOrBadStr_eq, missingOrBadStr_eq] at hbad
    rcases hbad with h | h <;> rw [Bool.not_eq_true'] at h
    · simp [generate_debug, pyGet, h, clientRejected, Outcome.isClientError]
    · by_cases h1 : isNonEmptyStr (getField fields "program_st") <;>
        simp [generate_debug, pyGet, h, h1, clientRejected, Outcome.isClientError]
  · intro hbad
    rw [missingOrNonStr_eq, Bool.not_eq_true'] at hbad
    simp [generate_gluevars, pyGet, hbad, clientRejected, Outcome.isClientError]

theorem c2_amended_field_validation_witness :
    missingOrBadStr [] "plc_xml" = true
    ∧ clientRejected (generate_st (.parsed (.obj [])) idTool false) :=
  ⟨rfl, (c2_amended_field_validation [] idTool false).1 rfl⟩

/-- C3: the tool's exit code is passed through without interpretation —
replacing the tool's exit code changes nothing in any endpoint's
harvesting or response except the `exit_code` field — and an `ok`
response carries the tool's real exit code and its captured stderr
unmodified. -/
theorem c3_exit_code_passthrough (s csv lv : String) (tool : Tool) (rc : Int) :
    generate_st_body s (setRc rc tool) = setExit rc (generate_st_body s tool)
    ∧ compile_st_body s (setRc rc tool) = setExit rc (compile_st_body s tool)
    ∧ generate_debug_body s csv (setRc rc tool) = setExit rc (generate_debug_body s csv tool)
    ∧ generate_gluevars_body lv (setRc rc tool) = setExit rc (generate_gluevars_body lv tool)
    ∧ (∀ resp, generate_st_body s tool = .ok resp →
        respField resp "exit_code" = some (.num (tool [("plc.xml", .text s)]).returncode)
        ∧ respField resp "output_stderr" = some (.str (tool [("plc.xml", .text s)]).stderr))
    ∧ (∀ resp, compile_st_body s tool = .ok resp →
        respField resp "exit_code" = some (.num (tool [("program.st", .text s)]).returncode)
        ∧ respField resp "output_stderr" = some (.str (tool [("program.st", .text s)]).stderr)) := by
  refine ⟨?_, ?_, ?_, ?_, ?_, ?_⟩
  · unfold generate_st_body setRc setExit
    dsimp only
    cases h : harvestNamed (tool [("plc.xml", FileData.text s)]).fsAfter "program.st" <;>
      simp [h]
  · unfold compile_st_body setRc setExit
    dsimp only
    simp
  · unfold generate_debug_body setRc setExit
    dsimp only
    cases h : harvestNamed
        (tool [("program.st", FileData.text s), ("VARIABLES.csv", FileData.text csv)]).fsAfter
        "program.st" <;>
      simp [h] <;>
      cases h2 : harvestNamed
          (tool [("program.st", FileData.text s), ("VARIABLES.csv", FileData.text csv)]).fsAfter
          "debug.c" <;>
        simp [h2]
  · unfold generate_gluevars_body setRc setExit
    dsimp only
    cases h : harvestNamed (tool [("LOCATED_VARIABLES.h", FileData.text lv)]).fsAfter
        "glueVars.c" <;>
      simp [h]
  · intro resp hresp
    unfold generate_st_body at hresp
    dsimp only at hresp
    cases h : harvestNamed (tool [("plc.xml", FileData.text s)]).fsAfter "program.st" with
    | error m => rw [h] at hresp; exact absurd hresp (by simp)
    | ok st =>
      rw [h] at hresp
      injection hresp with hresp
      subst hresp
      refine ⟨rfl, ?_⟩
      show some (Json.str (pyStderr (tool [("plc.xml", FileData.text s)]).stderr)) = _
      rw [pyStderr_eq]
  · intro resp hresp
    rw [compile_st_body_eq] at hresp
    injection hresp with hresp
    subst hresp
    refine ⟨rfl, ?_⟩
    show some (Json.str (pyStderr (tool [("program.st", FileData.text s)]).stderr)) = _
    rw [pyStderr_eq]

theorem c3_exit_code_passthrough_witness :
    respField [("output_stdout", Json.str ""), ("output_stderr", Json.str ""),
        ("exit_code", Json.num 0), ("program_st", Json.null)] "exit_code"
      = some (Json.num 0) :=
  (((c3_exit_code_passthrough "x" "c" "l" idTool 5).2.2.2.2.1)
    [("output_stdout", Json.str ""), ("output_stderr", Json.str ""),
     ("exit_code", Json.num 0), ("program_st", Json.null)] rfl).1

/-- C4 counterexample: on `/generate-st` (a named-files endpoint), a
`program.st` that exists but cannot be decoded as text makes the whole
invocation fail with an uncaught `UnicodeDecodeError` — no placeholder is
substituted and the invocation does not succeed. -/
theorem c4_counterexample :
    (generate_st (.parsed (.obj [("plc_xml", Json.str "x")])) undecodableTool false).outcome
      = .serverError "UnicodeDecodeError" := rfl

/-- C4, amended: only the enumerate-mode endpoint `/compile-st`
substitutes a short diagnostic string for a harvested file that cannot be
read, keeps the remaining files, and still succeeds; on the named-file
endpoints an unreadable output file raises instead. -/
theorem c4_amended_placeholder_on_compile (s : String) (tool : Tool) (n m : String) :
    (n, FileData.ioError m) ∈ (tool [("program.st", FileData.text s)]).fsAfter →
    n ≠ "program.st" →
    ∃ resp files, compile_st_body s tool = .ok resp
      ∧ respField resp "files" = some (.obj files)
      ∧ (n, Json.str ("Error reading file: " ++ m)) ∈ files := by
  intro hm hn
  refine ⟨_, _, compile_st_body_eq s tool, rfl, ?_⟩
  exact List.mem_map.mpr ⟨(n, readFileReplace (FileData.ioError m)), mem_harvestAll hm hn, rfl⟩

theorem c4_amended_placeholder_on_compile_witness :
    ∃ resp files, compile_st_body "P" failReadTool = .ok resp
      ∧ respField resp "files" = some (.obj files)
      ∧ ("POUS.c", Json.str ("Error reading file: " ++ "boom")) ∈ files :=
  c4_amended_placeholder_on_compile "P" failReadTool "POUS.c" "boom" (by decide) (by decide)

/-- C5 counterexample: a successful `/generate-st` response names its
stream fields `output_stdout` and `output_stderr`; it has no field named
`stdout` and none named `stderr`. -/
theorem c5_counterexample :
    (generate_st (.parsed (.obj [("plc_xml", Json.str "x")])) idTool false).outcome
      = .ok [("output_stdout", Json.str ""), ("output_stderr", Json.str ""),
             ("exit_code", Json.num 0), ("program_st", Json.null)]
    ∧ hasKey [("output_stdout", Json.str ""), ("output_stderr", Json.str ""),
             ("exit_code", Json.num 0), ("program_st", Json.null)] "stdout" = false
    ∧ hasKey [("output_stdout", Json.str ""), ("output_stderr", Json.str ""),
             ("exit_code", Json.num 0), ("program_st", Json.null)] "stderr" = false :=
  ⟨rfl, rfl, rfl⟩

/-- C5, amended: every successful `/generate-st` response consists of
exactly the fields `output_stdout`, `output_stderr`, `exit_code` and
`program_st` (in this order), with `program_st` a nullable text. -/
theorem c5_amended_response_fields (s : String) (tool : Tool) :
    ∀ resp, generate_st_body s tool = .ok resp →
      resp.map Prod.fst = ["output_stdout", "output_stderr", "exit_code", "program_st"]
      ∧ (respField resp "program_st" = some Json.null
         ∨ ∃ t, respField resp "program_st" = some (Json.str t)) := by
  intro resp hresp
  unfold generate_st_body at hresp
  dsimp only at hresp
  cases h : harvestNamed (tool [("plc.xml", FileData.text s)]).fsAfter "program.st" with
  | error m => rw [h] at hresp; exact absurd hresp (by simp)
  | ok st =>
    rw [h] at hresp
    injection hresp with hresp
    subst hresp
    refine ⟨rfl, ?_⟩
    cases st with
    | none => exact Or.inl rfl
    | some t => exact Or.inr ⟨t, rfl⟩

theorem c5_amended_response_fields_witness :
    [("output_stdout", Json.str ""), ("output_stderr", Json.str ""),
     ("exit_code", Json.num 0), ("program_st", Json.null)].map Prod.fst
      = ["output_stdout", "output_stderr", "exit_code", "program_st"]
    ∧ (respField [("output_stdout", Json.str ""), ("output_stderr", Json.str ""),
          ("exit_code", Json.num 0), ("program_st", Json.null)] "program_st" = some Json.null
       ∨ ∃ t, respField [("output_stdout", Json.str ""), ("output_stderr", Json.str ""),
          ("exit_code", Json.num 0), ("program_st", Json.null)] "program_st"
            = some (Json.str t)) :=
  c5_amended_response_fields "x" idTool
    [("output_stdout", Json.str ""), ("output_stderr", Json.str ""),
     ("exit_code", Json.num 0), ("program_st", Json.null)] rfl

/-- C6: every non-input file left in the workspace by the tool appears in
the `files` object of the `/compile-st` response, keyed by its file name
and carrying its read-back text content. -/
theorem c6_files_contains_all_noninput (s : String) (tool : Tool) (n : String) (d : FileData) :
    (n, d) ∈ (tool [("program.st", FileData.text s)]).fsAfter →
    n ≠ "program.st" →
    ∃ resp files, compile_st_body s tool = .ok resp
      ∧ respField resp "files" = some (.obj files)
      ∧ (n, Json.str (readFileReplace d)) ∈ files := by
  intro hm hn
  refine ⟨_, _, compile_st_body_eq s tool, rfl, ?_⟩
  exact List.mem_map.mpr ⟨(n, readFileReplace d), mem_harvestAll hm hn, rfl⟩

theorem c6_files_contains_all_noninput_witness :
    ∃ resp files, compile_st_body "PROGRAM" produceTool = .ok resp
      ∧ respField resp "files" = some (.obj files)
      ∧ ("POUS.c", Json.str "int x;") ∈ files :=
  c6_files_contains_all_noninput "PROGRAM" produceTool "POUS.c" (FileData.text "int x;")
    (by decide) (by decide)

/-- C7: the `files` object of a `/compile-st` response never carries the
key `program.st`, the input file name, even when the tool rewrote that
file in place. -/
theorem c7_input_never_in_files (s : String) (tool : Tool) :
    filesHasKey (compile_st_body s tool) "program.st" = false := by
  rw [compile_st_body_eq]
  show hasKey ((harvestAll (tool [("program.st", FileData.text s)]).fsAfter
      "program.st").map (fun p => (p.1, Json.str p.2))) "program.st" = false
  unfold hasKey harvestAll
  rw [List.any_eq_false]
  intro x hx
  rcases List.mem_map.mp hx with ⟨y, hy, rfl⟩
  rcases List.mem_map.mp hy with ⟨z, hz, rfl⟩
  have hne := (List.mem_filter.mp hz).2
  simp at hne ⊢
  exact hne

/-- C8 counterexample: a body that is valid JSON but not an object (here
the array `[]`) reaches `data.get`, which raises `AttributeError`: the
endpoint answers with an internal server error, not a client error
(though indeed no workspace is created and no tool is run). -/
theorem c8_counterexample :
    (generate_st (.parsed (Json.arr [])) idTool false).outcome = .serverError "AttributeError"
    ∧ (generate_st (.parsed (Json.arr [])) idTool false).outcome.isClientError = false
    ∧ (generate_st (.parsed (Json.arr [])) idTool false).wsCreated = false
    ∧ (generate_st (.parsed (Json.arr [])) idTool false).toolRan = false :=
  ⟨rfl, rfl, rfl, rfl⟩

/-- C8, amended: on every endpoint a body that fails to parse as JSON is
answered with the 400 client error and no workspace or subprocess; a body
that parses to a non-object value instead raises `AttributeError`
(an internal server error), likewise with no workspace and no
subprocess. -/
theorem c8_amended_malformed_body (tool : Tool) (rf : Bool) :
    generate_st .invalid tool rf
      = ⟨.clientError 400 "Request body must be valid JSON.", false, false, false⟩
    ∧ compile_st .invalid tool rf
      = ⟨.clientError 400 "Request body must be valid JSON.", false, false, false⟩
    ∧ generate_debug .invalid tool rf
      = ⟨.clientError 400 "Request body must be valid JSON.", false, false, false⟩
    ∧ generate_gluevars .invalid tool rf
      = ⟨.clientError 400 "Request body must be valid JSON.", false, false, false⟩
    ∧ (∀ j, isObj j = false →
        generate_st (.parsed j) tool rf = ⟨.serverError "AttributeError", false, false, false⟩
        ∧ compile_st (.parsed j) tool rf = ⟨.serverError "AttributeError", false, false, false⟩
        ∧ generate_debug (.parsed j) tool rf
            = ⟨.serverError "AttributeError", false, false, false⟩
        ∧ generate_gluevars (.parsed j) tool rf
            = ⟨.serverError "AttributeError", false, false, false⟩) := by
  refine ⟨rfl, rfl, rfl, rfl, ?_⟩
  intro j hj
  cases j with
  | obj fields => exact absurd hj (by simp [isObj])
  | null => exact ⟨rfl, rfl, rfl, rfl⟩
  | bool b => exact ⟨rfl, rfl, rfl, rfl⟩
  | num n => exact ⟨rfl, rfl, rfl, rfl⟩
  | str s => exact ⟨rfl, rfl, rfl, rfl⟩
  | arr xs => exact ⟨rfl, rfl, rfl, rfl⟩

theorem c8_amended_malformed_body_witness :
    isObj Json.null = false
    ∧ generate_st (.parsed Json.null) idTool false
        = ⟨.serverError "AttributeError", false, false, false⟩ :=
  ⟨rfl, ((c8_amended_malformed_body idTool false).2.2.2.2 Json.null rfl).1⟩

/-- C9: on every endpoint, a completed response's `output_stderr` field is
the JSON string holding exactly the tool's captured stderr — a string,
never null, and the empty string when the tool wrote nothing. -/
theorem c9_stderr_always_string (s csv lv : String) (tool : Tool) :
    (∀ resp, generate_st_body s tool = .ok resp →
      respField resp "output_stderr" = some (.str (tool [("plc.xml", .text s)]).stderr))
    ∧ (∀ resp, compile_st_body s tool = .ok resp →
      respField resp "output_stderr" = some (.str (tool [("program.st", .text s)]).stderr))
    ∧ (∀ resp, generate_debug_body s csv tool = .ok resp →
      respField resp "output_stderr"
        = some (.str (tool [("program.st", .text s), ("VARIABLES.csv", .text csv)]).stderr))
    ∧ (∀ resp, generate_gluevars_body lv tool = .ok resp →
      respField resp "output_stderr"
        = some (.str (tool [("LOCATED_VARIABLES.h", .text lv)]).stderr)) := by
  refine ⟨?_, ?_, ?_, ?_⟩
  · intro resp hresp
    unfold generate_st_body at hresp
    dsimp only at hresp
    cases h : harvestNamed (tool [("plc.xml", FileData.text s)]).fsAfter "program.st" with
    | error m => rw [h] at hresp; exact absurd hresp (by simp)
    | ok st =>
      rw [h] at hresp
      injection hresp with hresp
      subst hresp
      show some (Json.str (pyStderr (tool [("plc.xml", FileData.text s)]).stderr)) = _
      rw [pyStderr_eq]
  · intro resp hresp
    rw [compile_st_body_eq] at hresp
    injection hresp with hresp
    subst hresp
    show some (Json.str (pyStderr (tool [("program.st", FileData.text s)]).stderr)) = _
    rw [pyStderr_eq]
  · intro resp hresp
    unfold generate_debug_body at hresp
    dsimp only at hresp
    cases h : harvestNamed
        (tool [("program.st", FileData.text s), ("VARIABLES.csv", FileData.text csv)]).fsAfter
        "program.st" with
    | error m => rw [h] at hresp; exact absurd hresp (by simp)
    | ok st =>
      rw [h] at hresp
      cases h2 : harvestNamed
          (tool [("program.st", FileData.text s), ("VARIABLES.csv", FileData.text csv)]).fsAfter
          "debug.c" with
      | error m => rw [h2] at hresp; exact absurd hresp (by simp)
      | ok dbg =>
        rw [h2] at hresp
        injection hresp with hresp
        subst hresp
        show some (Json.str (pyStderr
          (tool [("program.st", FileData.text s),
                 ("VARIABLES.csv", FileData.text csv)]).stderr)) = _
        rw [pyStderr_eq]
  · intro resp hresp
    unfold generate_gluevars_body at hresp
    dsimp only at hresp
    cases h : harvestNamed (tool [("LOCATED_VARIABLES.h", FileData.text lv)]).fsAfter
        "glueVars.c" with
    | error m => rw [h] at hresp; exact absurd hresp (by simp)
    | ok gv =>
      rw [h] at hresp
      injection hresp with hresp
      subst hresp
      show some (Json.str (pyStderr (tool [("LOCATED_VARIABLES.h", FileData.text lv)]).stderr))
        = _
      rw [pyStderr_eq]

theorem c9_stderr_always_string_witness :
    respField [("output_stdout", Json.str ""), ("output_stderr", Json.str ""),
        ("exit_code", Json.num 0), ("program_st", Json.null)] "output_stderr"
      = some (Json.str "") :=
  (c9_stderr_always_string "x" "c" "l" idTool).1
    [("output_stdout", Json.str ""), ("output_stderr", Json.str ""),
     ("exit_code", Json.num 0), ("program_st", Json.null)] rfl

/-- C10: on `/generate-debug`, if after the tool has run the workspace
file `program.st` holds exactly the text written from the request, the
response's `program_st` field equals the request's `program_st` string
(the write-then-read round trip through the workspace). -/
theorem c10_program_st_round_trip (st csv : String) (tool : Tool) :
    ∀ resp,
      lookupFS ((tool [("program.st", FileData.text st),
          ("VARIABLES.csv", FileData.text csv)]).fsAfter) "program.st"
        = some (FileData.text st) →
      generate_debug_body st csv tool = .ok resp →
      respField resp "program_st" = some (Json.str st) := by
  intro resp hfile hresp
  unfold generate_debug_body at hresp
  dsimp only at hresp
  have h1 : harvestNamed
      (tool [("program.st", FileData.text st), ("VARIABLES.csv", FileData.text csv)]).fsAfter
      "program.st" = .ok (some st) := by
    unfold harvestNamed
    rw [hfile]
  rw [h1] at hresp
  cases h2 : harvestNamed
      (tool [("program.st", FileData.text st), ("VARIABLES.csv", FileData.text csv)]).fsAfter
      "debug.c" with
  | error m => rw [h2] at hresp; exact absurd hresp (by simp)
  | ok dbg =>
    rw [h2] at hresp
    injection hresp with hresp
    subst hresp
    rfl

theorem c10_program_st_round_trip_witness :
    respField [("output_stdout", Json.str ""), ("output_stderr", Json.str ""),
        ("exit_code", Json.num 0), ("program_st", Json.str "PROG"), ("debug_c", Json.null)]
        "program_st"
      = some (Json.str "PROG") :=
  c10_program_st_round_trip "PROG" "V" idTool
    [("output_stdout", Json.str ""), ("output_stderr", Json.str ""),
     ("exit_code", Json.num 0), ("program_st", Json.str "PROG"), ("debug_c", Json.null)]
    rfl rfl

end CompilerService
